import Mathlib

/-!
Verification development for the payment-backend repository.

The definitions below are a shallow embedding of the TypeScript source:

* `src/lib/idempotency.ts` — the event gate (webhook deduplication);
* `src/lib/firestore.ts` — the collections (modelled as lists inside `SysState`);
* `src/services/entitlementService.ts` — entitlement reads/writes;
* `src/services/subscriptionManager.ts` — the subscription state machine;
* `src/adapters/stripeAdapter.ts` and `src/adapters/iapAdapter.ts` — webhook
  side-effect handlers;
* `src/webhooks/stripe.webhook.ts` and `src/webhooks/appstore.webhook.ts` —
  the webhook endpoints;
* the dunning job (`runDunningJob`) and the reconciliation job
  (`runReconcileJob`) as quoted in `WEBHOOK_TESTING.md`.

Timestamps are modelled as `Nat` milliseconds since the epoch (`new Date()`
becomes an explicit `now : Nat` parameter).  Monetary amounts are modelled as
`ℚ`.  The Firestore store is modelled as explicit lists threaded through every
operation; `doc(...).update` on a missing document throws in Firestore, which
is modelled by returning the state unchanged from the enclosing handler before
any subsequent write happens.
-/

namespace PaymentBackend

/-- Payment provider enum (`'stripe' | 'iap' | 'wise'` in `src/types`). -/
inductive Provider where
  | stripe
  | iap
  | wise
deriving DecidableEq, Repr

/-- Subscription lifecycle status (`SubscriptionStatus` in `src/types`):
`incomplete`, `trialing`, `active`, `past_due`, `canceled`, `ended`, plus the
`paused` status written by the IAP adapter. -/
inductive SubStatus where
  | incomplete
  | trialing
  | active
  | pastDue
  | canceled
  | ended
  | paused
deriving DecidableEq, Repr

/-- One subscription document (collection `subscriptions`).
`platform` models `metadata.platform`; `updatedAt`, `graceUntil` and the
period bounds are epoch milliseconds. -/
structure Subscription where
  id : String
  uid : String
  provider : Provider
  planId : String
  status : SubStatus
  currentPeriodStart : Nat
  currentPeriodEnd : Nat
  graceUntil : Option Nat
  cancelAtPeriodEnd : Bool
  platform : Option String
  createdAt : Nat
  updatedAt : Nat
deriving DecidableEq, Repr

/-- The feature map of an entitlement document (`EntitlementFeatures`).
`androidNoReplay` is an optional field in the source, hence `Option Bool`. -/
structure EntFeatures where
  groupReplay : Bool
  oneToOne : Bool
  androidNoReplay : Option Bool
deriving DecidableEq, Repr

/-- A partial feature update as passed to
`EntitlementService.updateEntitlements` (each field may be absent). -/
structure EntUpdate where
  groupReplay : Option Bool := none
  oneToOne : Option Bool := none
  androidNoReplay : Option Bool := none
deriving DecidableEq, Repr

/-- The `meta` annotations of a ledger entry that the claims touch
(dunning attempt number / reconciliation mismatch detail). -/
structure LedgerMeta where
  dunningAttempt : Option Nat := none
  daysSinceFailure : Option Nat := none
  mtype : Option String := none
  ledgerTotal : Option ℚ := none
  providerTotal : Option ℚ := none
deriving DecidableEq, Repr

/-- One ledger entry (collection `ledger`).  `lid` models the fresh document
id generated by Firestore `.add()`: entries are appended with
`lid := ledger.length`, so ids are the positions `0, 1, 2, …`. -/
structure LedgerEntry where
  lid : Nat
  ts : Nat
  type : String
  refId : String
  provider : Provider
  amount : ℚ
  currency : String
  uid : Option String
  meta : LedgerMeta
deriving DecidableEq, Repr

/-- A webhook deduplication record (collection `webhooks`), as written by
`markWebhookProcessed` in `src/lib/idempotency.ts`. -/
structure DedupRecord where
  dedupKey : String
  provider : String
  rawId : String
  status : String
  reason : Option String
  processedAt : Nat
deriving DecidableEq, Repr

/-- The whole persistent state: the four collections the claims touch.
Entitlements are an association list keyed by `uid`. -/
structure SysState where
  subs : List Subscription
  ents : List (String × EntFeatures)
  ledger : List LedgerEntry
  webhooks : List DedupRecord
deriving DecidableEq, Repr

/-- The provider's wire name, as interpolated into strings by the source. -/
def Provider.name : Provider → String
  | .stripe => "stripe"
  | .iap => "iap"
  | .wise => "wise"

/-- Milliseconds per day (`1000 * 60 * 60 * 24`). -/
def MS_PER_DAY : Nat := 86400000

/-- Models `GRACE_DAYS` environment default (`'7'`). -/
def GRACE_DAYS : Nat := 7

/-- Models `collections.subscriptions().doc(id).get()`. -/
def findSub : List Subscription → String → Option Subscription
  | [], _ => none
  | s :: rest, sid => if s.id = sid then some s else findSub rest sid

/-- Models `collections.subscriptions().doc(id).update(f)`: apply `f` to the matching
document, leave the rest unchanged. -/
def setSub (subs : List Subscription) (sid : String) (f : Subscription → Subscription) :
    List Subscription :=
  subs.map fun s => if s.id = sid then f s else s

/-- Models `collections.entitlements().doc(uid).get()`. -/
def findEnt : List (String × EntFeatures) → String → Option EntFeatures
  | [], _ => none
  | (u, e) :: rest, uid => if u = uid then some e else findEnt rest uid

/-- Models `collections.entitlements().doc(uid).set(...)`: replace or insert the
document for `uid`. -/
def setEnt : List (String × EntFeatures) → String → EntFeatures →
    List (String × EntFeatures)
  | [], uid, e => [(uid, e)]
  | (u, old) :: rest, uid, e =>
      if u = uid then (u, e) :: rest else (u, old) :: setEnt rest uid e

/-- Models `collections.ledger().add(entry)`: append with a fresh document id,
modelled as the current length of the collection. -/
def ledgerAdd (l : List LedgerEntry) (e : Nat → LedgerEntry) : List LedgerEntry :=
  l ++ [e l.length]

/-- Models `collections.webhooks().doc(key).get()` (existence lookup). -/
def findWebhook : List DedupRecord → String → Option DedupRecord
  | [], _ => none
  | r :: rest, key => if r.dedupKey = key then some r else findWebhook rest key

/-- Models `collections.webhooks().doc(key).set(record)`. -/
def setWebhook : List DedupRecord → DedupRecord → List DedupRecord
  | [], r => [r]
  | r0 :: rest, r => if r0.dedupKey = r.dedupKey then r :: rest else r0 :: setWebhook rest r

/-! ## EntitlementService (`src/services/entitlementService.ts`) -/

namespace EntitlementService

/-- Models `updateEntitlements` merge logic: each supplied field overrides, otherwise
the existing value is kept (`?? existing?.features.x ?? false`, and plain
`?? existing?.features.androidNoReplay` for the optional flag). -/
def mergeFeatures (existing : Option EntFeatures) (f : EntUpdate) : EntFeatures :=
  { groupReplay := f.groupReplay.getD ((existing.map (·.groupReplay)).getD false)
    oneToOne := f.oneToOne.getD ((existing.map (·.oneToOne)).getD false)
    androidNoReplay := f.androidNoReplay.orElse fun _ => existing.bind (·.androidNoReplay) }

/-- Models `EntitlementService.updateEntitlements(uid, features)`: read the existing
document, merge field-wise, write the full document back. -/
def updateEntitlements (uid : String) (f : EntUpdate) (st : SysState) : SysState :=
  { st with ents := setEnt st.ents uid (mergeFeatures (findEnt st.ents uid) f) }

/-- Models `EntitlementService.revokeAllEntitlements(uid)`: overwrite the document
with `{ groupReplay: false, oneToOne: false }` (a plain `.set`, so the
optional `androidNoReplay` field is dropped). -/
def revokeAllEntitlements (uid : String) (st : SysState) : SysState :=
  { st with
    ents := setEnt st.ents uid
      { groupReplay := false, oneToOne := false, androidNoReplay := none } }

end EntitlementService

/-! ## SubscriptionManager (`src/services/subscriptionManager.ts`) -/

namespace SubscriptionManager

/-- Models `grantEntitlements(subscription)`: a Stripe subscription supplies
`oneToOne := true, groupReplay := false`; an IAP subscription supplies
`groupReplay := true, oneToOne := false` and additionally
`androidNoReplay := true` when `metadata.platform === 'android'`.
A Wise subscription supplies no features (neither branch matches). -/
def grantEntitlements (sub : Subscription) (st : SysState) : SysState :=
  let features : EntUpdate :=
    match sub.provider with
    | .stripe => { oneToOne := some true, groupReplay := some false }
    | .iap =>
        { groupReplay := some true, oneToOne := some false,
          androidNoReplay := if sub.platform = some "android" then some true else none }
    | .wise => {}
  EntitlementService.updateEntitlements sub.uid features st

/-- Models `revokeEntitlements(uid)` — delegates to
`entitlementService.revokeAllEntitlements`. -/
def revokeEntitlements (uid : String) (st : SysState) : SysState :=
  EntitlementService.revokeAllEntitlements uid st

/-- Models `hasOtherActiveSubscriptions(uid, excludeSubscriptionId)`: query for the
user's subscriptions whose status is in `['active', 'trialing', 'past_due']`
and report whether any has a different document id. -/
def hasOtherActiveSubscriptions (uid : String) (excludeId : String) (st : SysState) : Bool :=
  (st.subs.filter fun s =>
      decide (s.uid = uid ∧
        (s.status = .active ∨ s.status = .trialing ∨ s.status = .pastDue))).any
    fun s => decide (s.id ≠ excludeId)

/-- Models `updateSubscriptionStatus(subscriptionId, status)`: update the document
(setting `graceUntil := now + GRACE_DAYS` days only when the new status is
`past_due`; no other status touches `graceUntil`), then re-read it and manage
entitlements: grant for `active`/`trialing`, revoke for
`canceled`/`ended`/`incomplete` when no other active subscription exists, keep
them for `past_due`.  Firestore `.update` throws on a missing document, so the
operation is a no-op when the subscription is absent. -/
def updateSubscriptionStatus (now : Nat) (sid : String) (status : SubStatus)
    (st : SysState) : SysState :=
  match findSub st.subs sid with
  | none => st
  | some _ =>
    let upd : Subscription → Subscription := fun s =>
      let s := { s with status := status, updatedAt := now }
      if status = .pastDue then
        { s with graceUntil := some (now + GRACE_DAYS * MS_PER_DAY) }
      else s
    let st1 : SysState := { st with subs := setSub st.subs sid upd }
    match findSub st1.subs sid with
    | none => st1
    | some sub =>
      if status = .active ∨ status = .trialing then
        grantEntitlements sub st1
      else if status = .canceled ∨ status = .ended ∨ status = .incomplete then
        if hasOtherActiveSubscriptions sub.uid sid st1 then st1
        else revokeEntitlements sub.uid st1
      else st1

/-- Models `renewSubscription(subscriptionId)`: shift the period by one 30-day cycle
(`calculatePeriodEnd`), set `status := 'active'`, clear `graceUntil`, re-grant
entitlements, and append a `subscription.renewed` ledger entry.  Throws
(no-op here) when the subscription is missing. -/
def renewSubscription (now : Nat) (sid : String) (st : SysState) : SysState :=
  match findSub st.subs sid with
  | none => st
  | some sub =>
    let newPeriodStart := sub.currentPeriodEnd
    let newPeriodEnd := newPeriodStart + 30 * MS_PER_DAY
    let st1 : SysState :=
      { st with
        subs := setSub st.subs sid fun s =>
          { s with status := .active, currentPeriodStart := newPeriodStart,
                   currentPeriodEnd := newPeriodEnd, graceUntil := none,
                   updatedAt := now } }
    let st2 := grantEntitlements { sub with status := .active } st1
    { st2 with
      ledger := ledgerAdd st2.ledger fun lid =>
        { lid := lid, ts := now, type := "subscription.renewed", refId := sid,
          provider := sub.provider, amount := 0, currency := "USD",
          uid := some sub.uid, meta := {} } }

/-- Models `cancelSubscription(subscriptionId, immediate)`: deferred cancel just sets
`cancelAtPeriodEnd := true`; immediate cancel sets `status := 'canceled'` and
`currentPeriodEnd := now`, revokes entitlements unless another active
subscription exists, and appends a `subscription.canceled` ledger entry. -/
def cancelSubscription (now : Nat) (sid : String) (immediate : Bool)
    (st : SysState) : SysState :=
  match findSub st.subs sid with
  | none => st
  | some _ =>
    if immediate then
      let st1 : SysState :=
        { st with subs := setSub st.subs sid fun s =>
            { s with status := .canceled, currentPeriodEnd := now, updatedAt := now } }
      match findSub st1.subs sid with
      | none => st1
      | some sub =>
        let st2 :=
          if hasOtherActiveSubscriptions sub.uid sid st1 then st1
          else revokeEntitlements sub.uid st1
        { st2 with
          ledger := ledgerAdd st2.ledger fun lid =>
            { lid := lid, ts := now, type := "subscription.canceled", refId := sid,
              provider := sub.provider, amount := 0, currency := "USD",
              uid := some sub.uid, meta := {} } }
    else
      { st with subs := setSub st.subs sid fun s =>
          { s with cancelAtPeriodEnd := true, updatedAt := now } }

/-- Models `handleFailedRenewal(subscriptionId, attempt)`: attempt `0` re-applies
`past_due` via `updateSubscriptionStatus`; a later attempt cancels (and then
unconditionally revokes the user's entitlements) only when the grace period
recorded on the document has expired; otherwise nothing changes.  Returns
unchanged when the subscription is missing. -/
def handleFailedRenewal (now : Nat) (sid : String) (attempt : Nat)
    (st : SysState) : SysState :=
  match findSub st.subs sid with
  | none => st
  | some sub =>
    if attempt = 0 then
      updateSubscriptionStatus now sid .pastDue st
    else
      match sub.graceUntil with
      | some g =>
          if g < now then
            let st1 := updateSubscriptionStatus now sid .canceled st
            revokeEntitlements sub.uid st1
          else st
      | none => st

/-- Models `checkGracePeriodExpiry()`: for every subscription with
`status == 'past_due'` and `graceUntil <= now`, drive it to `canceled` through
`updateSubscriptionStatus`. -/
def checkGracePeriodExpiry (now : Nat) (st : SysState) : SysState :=
  let expired := st.subs.filter fun s =>
    decide (s.status = .pastDue) &&
      match s.graceUntil with
      | some g => decide (g ≤ now)
      | none => false
  expired.foldl (fun acc s => updateSubscriptionStatus now s.id .canceled acc) st

end SubscriptionManager

/-! ## StripeAdapter (`src/adapters/stripeAdapter.ts`) -/

/-- The fields of a Stripe invoice that `handleInvoicePaymentFailed` reads.
`amountDue` is in cents, as in the Stripe payload. -/
structure StripeInvoice where
  invoiceId : String
  subscriptionId : Option String
  amountDue : Nat
  currency : String
  uid : String
deriving DecidableEq, Repr

namespace StripeAdapter

/-- Models `handleInvoicePaymentFailed(event)`: if the invoice names a subscription,
update it to `status := 'past_due'` — note: without touching `graceUntil` —
then append a `payment.failed` ledger entry with `amount_due / 100`.
A Firestore `.update` on a missing subscription throws before the ledger
write, leaving the state unchanged (the endpoint then answers 400). -/
def handleInvoicePaymentFailed (now : Nat) (inv : StripeInvoice) (st : SysState) :
    Option SysState :=
  match inv.subscriptionId with
  | some sid =>
    match findSub st.subs sid with
    | none => none
    | some _ =>
      let st1 : SysState :=
        { st with subs := setSub st.subs sid fun s =>
            { s with status := .pastDue, updatedAt := now } }
      some { st1 with
        ledger := ledgerAdd st1.ledger fun lid =>
          { lid := lid, ts := now, type := "payment.failed", refId := inv.invoiceId,
            provider := .stripe, amount := (inv.amountDue : ℚ) / 100,
            currency := inv.currency, uid := some inv.uid, meta := {} } }
  | none =>
    some { st with
      ledger := ledgerAdd st.ledger fun lid =>
        { lid := lid, ts := now, type := "payment.failed", refId := inv.invoiceId,
          provider := .stripe, amount := (inv.amountDue : ℚ) / 100,
          currency := inv.currency, uid := some inv.uid, meta := {} } }

/-- Models `StripeAdapter.updateEntitlements(uid, active)`: a document-level merge
write of `features: { oneToOne: active, groupReplay: false }`; the nested
merge keeps an existing `androidNoReplay` value. -/
def updateEntitlements (uid : String) (active : Bool) (st : SysState) : SysState :=
  { st with
    ents := setEnt st.ents uid
      { oneToOne := active, groupReplay := false,
        androidNoReplay := (findEnt st.ents uid).bind (·.androidNoReplay) } }

end StripeAdapter

/-! ## IAPAdapter (`src/adapters/iapAdapter.ts`) -/

namespace IAPAdapter

/-- Models `handleIAPRenewal(payload, platform)`: look up the subscription by the
extracted id (silently return when missing), set `status := 'active'`
unconditionally — there is no terminal-state guard — shift the period by 30
days, clear `graceUntil`, and append a `subscription.renewed` ledger entry of
9.99 USD.  (The invoice document it also writes is outside this model.) -/
def handleIAPRenewal (now : Nat) (sid : String) (st : SysState) : SysState :=
  match findSub st.subs sid with
  | none => st
  | some sub =>
    let newPeriodStart := sub.currentPeriodEnd
    let newPeriodEnd := newPeriodStart + 30 * MS_PER_DAY
    let st1 : SysState :=
      { st with subs := setSub st.subs sid fun s =>
          { s with status := .active, currentPeriodStart := newPeriodStart,
                   currentPeriodEnd := newPeriodEnd, graceUntil := none,
                   updatedAt := now } }
    { st1 with
      ledger := ledgerAdd st1.ledger fun lid =>
        { lid := lid, ts := now, type := "subscription.renewed", refId := sid,
          provider := .iap, amount := (999 : ℚ) / 100, currency := "USD",
          uid := some sub.uid, meta := {} } }

/-- Models `handleIAPRenewalFailure(payload, platform)`: set the subscription to
`past_due` with `graceUntil := now + GRACE_DAYS` days and append a
`payment.failed` ledger entry (amount `0`). -/
def handleIAPRenewalFailure (now : Nat) (sid : String) (st : SysState) : SysState :=
  match findSub st.subs sid with
  | none => st
  | some sub =>
    let st1 : SysState :=
      { st with subs := setSub st.subs sid fun s =>
          { s with status := .pastDue,
                   graceUntil := some (now + GRACE_DAYS * MS_PER_DAY),
                   updatedAt := now } }
    { st1 with
      ledger := ledgerAdd st1.ledger fun lid =>
        { lid := lid, ts := now, type := "payment.failed", refId := sid,
          provider := .iap, amount := 0, currency := "USD",
          uid := some sub.uid, meta := {} } }

/-- Models `handleIAPRefund(payload, platform)`: cancel the subscription immediately
(`status := 'canceled'`, `currentPeriodEnd := now`), overwrite the user's
entitlement features with `{ groupReplay: false, oneToOne: false,
androidNoReplay: false }` — with no check for other still-entitled
subscriptions — and append a `refund.succeeded` ledger entry of 9.99 USD. -/
def handleIAPRefund (now : Nat) (sid : String) (st : SysState) : SysState :=
  match findSub st.subs sid with
  | none => st
  | some sub =>
    let st1 : SysState :=
      { st with subs := setSub st.subs sid fun s =>
          { s with status := .canceled, currentPeriodEnd := now, updatedAt := now } }
    let st2 : SysState :=
      { st1 with
        ents := setEnt st1.ents sub.uid
          { groupReplay := false, oneToOne := false, androidNoReplay := some false } }
    { st2 with
      ledger := ledgerAdd st2.ledger fun lid =>
        { lid := lid, ts := now, type := "refund.succeeded", refId := sid,
          provider := .iap, amount := (999 : ℚ) / 100, currency := "USD",
          uid := some sub.uid, meta := {} } }

end IAPAdapter

/-! ## Event gate (`src/lib/idempotency.ts`) and webhook endpoints -/

/-- Models `generateWebhookDedupKey(provider, eventId)`. -/
def generateWebhookDedupKey (provider : String) (eventId : String) : String :=
  "webhook:" ++ provider ++ ":" ++ eventId

/-- Models `isWebhookProcessed(dedupKey)` (`src/lib/idempotency.ts` lines 136-144):
the Firestore read either yields `doc.exists` or throws; a thrown error is
caught, logged, and turned into `false`. -/
def isWebhookProcessed (readResult : Except Unit Bool) : Bool :=
  match readResult with
  | .ok docExists => docExists
  | .error _ => false

/-- Models `markWebhookProcessed(dedupKey, provider, rawId, status, reason)`. -/
def markWebhookProcessed (now : Nat) (dedupKey provider rawId status : String)
    (reason : Option String) (st : SysState) : SysState :=
  { st with
    webhooks := setWebhook st.webhooks
      { dedupKey := dedupKey, provider := provider, rawId := rawId,
        status := status, reason := reason, processedAt := now } }

/-- The adapter's `WebhookResult`. -/
structure WebhookResult where
  eventId : String
  eventType : String
  processed : Bool
  reason : Option String
deriving DecidableEq, Repr

/-- The HTTP responses the stripe/appstore webhook endpoints can produce. -/
inductive WebhookResponse where
  | badRequest
  | alreadyProcessed (eventId : String)
  | ok (r : WebhookResult)
deriving DecidableEq, Repr

/-- The Stripe webhook events modelled here (the dedup-relevant subset of the
`switch` in `StripeAdapter.handleWebhook`). -/
inductive StripeEvent where
  | invoicePaymentFailed (eventId : String) (inv : StripeInvoice)
deriving DecidableEq, Repr

/-- Models `StripeAdapter.handleWebhook(payload, signature)`: dispatch on the event
type and run the side effects; `none` models a thrown error (endpoint answers
400 and nothing was written). -/
def stripeHandleWebhook (now : Nat) (ev : StripeEvent) (st : SysState) :
    Option (SysState × WebhookResult) :=
  match ev with
  | .invoicePaymentFailed eventId inv =>
    (StripeAdapter.handleInvoicePaymentFailed now inv st).map fun st1 =>
      (st1, { eventId := eventId, eventType := "invoice.payment_failed",
              processed := true, reason := none })

/-- The `POST /webhooks/stripe` route (`src/webhooks/stripe.webhook.ts`):
run the adapter (all side effects happen here), *then* check deduplication,
and only then record the dedup record.  `dedupReadFails` makes the store read
inside `isWebhookProcessed` throw. -/
def stripeWebhookPost (now : Nat) (ev : StripeEvent) (dedupReadFails : Bool)
    (st : SysState) : SysState × WebhookResponse :=
  match stripeHandleWebhook now ev st with
  | none => (st, .badRequest)
  | some (st1, result) =>
    let dedupKey := generateWebhookDedupKey "stripe" result.eventId
    let alreadyProcessed := isWebhookProcessed
      (if dedupReadFails then .error ()
       else .ok (findWebhook st1.webhooks dedupKey).isSome)
    if alreadyProcessed then
      (st1, .alreadyProcessed result.eventId)
    else
      (markWebhookProcessed now dedupKey "stripe" result.eventId
        (if result.processed then "processed" else "ignored") result.reason st1,
       .ok result)

/-- The App Store server notifications modelled here (the `DID_FAIL_TO_RENEW`
branch of `handleAppleWebhook`; the webhook's event id is the transaction
id). -/
inductive AppleEvent where
  | didFailToRenew (originalTransactionId : String)
deriving DecidableEq, Repr

/-- Models `IAPAdapter.handleWebhook` for an Apple payload: `DID_FAIL_TO_RENEW`
runs `handleIAPRenewalFailure` on the extracted original transaction id. -/
def iapHandleAppleWebhook (now : Nat) (ev : AppleEvent) (st : SysState) :
    SysState × WebhookResult :=
  match ev with
  | .didFailToRenew otid =>
    (IAPAdapter.handleIAPRenewalFailure now otid st,
     { eventId := otid, eventType := "DID_FAIL_TO_RENEW",
       processed := true, reason := none })

/-- The `POST /webhooks/appstore` route (`src/webhooks/appstore.webhook.ts`):
identical shape to the Stripe route — adapter side effects first, dedup check
afterwards (provider string `'appstore'` in the key, `'iap'` in the
record). -/
def appstoreWebhookPost (now : Nat) (ev : AppleEvent) (dedupReadFails : Bool)
    (st : SysState) : SysState × WebhookResponse :=
  let (st1, result) := iapHandleAppleWebhook now ev st
  let dedupKey := generateWebhookDedupKey "appstore" result.eventId
  let alreadyProcessed := isWebhookProcessed
    (if dedupReadFails then .error ()
     else .ok (findWebhook st1.webhooks dedupKey).isSome)
  if alreadyProcessed then
    (st1, .alreadyProcessed result.eventId)
  else
    (markWebhookProcessed now dedupKey "iap" result.eventId
      (if result.processed then "processed" else "ignored") result.reason st1,
     .ok result)

/-! ## Dunning job (quoted in `WEBHOOK_TESTING.md`, `runDunningJob`) -/

namespace Dunning

/-- One dunning work item. -/
structure DunningAttempt where
  subscriptionId : String
  uid : String
  attemptNumber : Nat
  daysSinceFailure : Nat
deriving DecidableEq, Repr

/-- Models `calculateDaysSinceFailure(subscription)`:
`Math.ceil(|now - updatedAt| / (1000*60*60*24))` — note: computed from the
document's `updatedAt`, with a ceiling, not a floor. -/
def calculateDaysSinceFailure (now : Nat) (sub : Subscription) : Nat :=
  (Nat.dist now sub.updatedAt + (MS_PER_DAY - 1)) / MS_PER_DAY

/-- Models `determineAttemptNumber(daysSinceFailure)`: day 0 or 1 → attempt 0 (T+0),
day 3 → attempt 1 (T+3), day 7 → attempt 2 (T+7), otherwise no dunning
action. -/
def determineAttemptNumber (daysSinceFailure : Nat) : Option Nat :=
  if daysSinceFailure = 0 ∨ daysSinceFailure = 1 then some 0
  else if daysSinceFailure = 3 then some 1
  else if daysSinceFailure = 7 then some 2
  else none

/-- Models `processDunningAttempt(attempt)`: send the reminder and regenerate the
retry link (pure logging, no state), append the `payment.failed` dunning
ledger entry annotated with the attempt number, then call
`subscriptionManager.handleFailedRenewal`. -/
def processDunningAttempt (now : Nat) (att : DunningAttempt) (st : SysState) :
    SysState :=
  let st1 : SysState :=
    { st with
      ledger := ledgerAdd st.ledger fun lid =>
        { lid := lid, ts := now, type := "payment.failed",
          refId := att.subscriptionId, provider := .stripe, amount := 0,
          currency := "USD", uid := some att.uid,
          meta := { dunningAttempt := some att.attemptNumber,
                    daysSinceFailure := some att.daysSinceFailure } } }
  SubscriptionManager.handleFailedRenewal now att.subscriptionId att.attemptNumber st1

/-- Models `runDunningJob()`: collect every `past_due` subscription whose computed
day count maps to a milestone, process each collected attempt, then check for
expired grace periods via `subscriptionManager.checkGracePeriodExpiry`. -/
def runDunningJob (now : Nat) (st : SysState) : SysState :=
  let pastDue := st.subs.filter fun s => decide (s.status = .pastDue)
  let attempts : List DunningAttempt := pastDue.filterMap fun sub =>
    let daysSinceFailure := calculateDaysSinceFailure now sub
    (determineAttemptNumber daysSinceFailure).map fun attemptNumber =>
      { subscriptionId := sub.id, uid := sub.uid,
        attemptNumber := attemptNumber, daysSinceFailure := daysSinceFailure }
  let st1 := attempts.foldl (fun acc att => processDunningAttempt now att acc) st
  SubscriptionManager.checkGracePeriodExpiry now st1

end Dunning

/-! ## Reconciliation job (quoted in `WEBHOOK_TESTING.md`, `runReconcileJob`) -/

namespace Reconcile

/-- The financial event types summed by `getLedgerTotal`. -/
def financialTypes : List String :=
  ["payment.succeeded", "refund.succeeded", "payout.paid"]

/-- Models `getLedgerTotal(provider, startDate, endDate)`: over entries of the
provider in the window whose type is financial, subtract `refund.succeeded`
amounts and add every other (`payment.succeeded` *and* `payout.paid`). -/
def getLedgerTotal (provider : Provider) (startDate endDate : Nat)
    (ledger : List LedgerEntry) : ℚ :=
  (ledger.filter fun e =>
      decide (e.provider = provider ∧ startDate ≤ e.ts ∧ e.ts ≤ endDate ∧
        e.type ∈ financialTypes)).foldl
    (fun total e =>
      if e.type = "refund.succeeded" then total - e.amount else total + e.amount)
    0

/-- One provider's reconciliation outcome. -/
structure ReconciliationResult where
  provider : Provider
  ledgerTotal : ℚ
  providerTotal : ℚ
  difference : ℚ
  matched : Bool
deriving DecidableEq, Repr

/-- Models `reconcileProvider(provider, startDate, endDate)`: the ledger total, the
external-totals collaborator's answer (`getProviderTotal`, abstracted as
`ext`), their absolute difference, and `matched := difference < 0.01` (the
rounding tolerance). -/
def reconcileProvider (provider : Provider) (startDate endDate : Nat)
    (ext : Provider → ℚ) (ledger : List LedgerEntry) : ReconciliationResult :=
  let ledgerTotal := getLedgerTotal provider startDate endDate ledger
  let providerTotal := ext provider
  let difference := |ledgerTotal - providerTotal|
  { provider := provider, ledgerTotal := ledgerTotal,
    providerTotal := providerTotal, difference := difference,
    matched := decide (difference < 1 / 100) }

/-- The `payment.failed`-tagged mismatch alert entry appended for a flagged
provider, carrying both totals and the delta. -/
def mismatchEntry (now : Nat) (r : ReconciliationResult) (lid : Nat) : LedgerEntry :=
  { lid := lid, ts := now, type := "payment.failed",
    refId := "reconcile_" ++ r.provider.name, provider := r.provider,
    amount := r.difference, currency := "USD", uid := none,
    meta := { mtype := some "reconciliation_mismatch",
              ledgerTotal := some r.ledgerTotal,
              providerTotal := some r.providerTotal } }

/-- The ledger write for one provider in `runReconcileJob`'s result loop: a
mismatch alert entry is appended when the provider is flagged; a matched
provider writes nothing. -/
def writeMismatch (now : Nat) (r : ReconciliationResult) (st : SysState) : SysState :=
  if r.matched then st
  else { st with ledger := ledgerAdd st.ledger (mismatchEntry now r) }

/-- Models `getStartDate()`: midnight of the previous day. -/
def getStartDate (now : Nat) : Nat :=
  (now / MS_PER_DAY - 1) * MS_PER_DAY

/-- Models `runReconcileJob()`: reconcile `stripe`, `iap` and `wise` over
`[getStartDate(), now]` — all three totals are computed before any write —
then append one mismatch alert per unmatched provider. -/
def runReconcileJob (now : Nat) (ext : Provider → ℚ) (st : SysState) : SysState :=
  let startDate := getStartDate now
  let results := [Provider.stripe, Provider.iap, Provider.wise].map fun p =>
    reconcileProvider p startDate now ext st.ledger
  results.foldl (fun acc r => writeMismatch now r acc) st

end Reconcile

/-! ## Spec-side definitions

These two definitions follow the specification's words rather than the
source, and exist only to be compared against the source-derived definitions
above. -/

/-- Spec-side: the statuses the specification calls "entitled"
(Active, Trialing, and the grace-period retry state). -/
def entitledStatuses : List SubStatus := [.active, .trialing, .pastDue]

/-- Spec-side: the provider/platform feature template of one subscription as
the specification describes it (Stripe contributes `oneToOne`; IAP contributes
`groupReplay` and, on Android, `androidNoReplay`). -/
def specFeatureTemplate (sub : Subscription) : EntFeatures :=
  match sub.provider with
  | .stripe => { oneToOne := true, groupReplay := false, androidNoReplay := none }
  | .iap =>
      { groupReplay := true, oneToOne := false,
        androidNoReplay := if sub.platform = some "android" then some true else none }
  | .wise => { oneToOne := false, groupReplay := false, androidNoReplay := none }

/-- Spec-side: the per-feature logical OR of the feature templates over all of
a user's subscriptions in an entitled status — the value the specification
says the user's `EntitlementSet` always equals. -/
def specEntitlementUnion (subs : List Subscription) (uid : String) : EntFeatures :=
  (subs.filter fun s => decide (s.uid = uid) && decide (s.status ∈ entitledStatuses)).foldl
    (fun acc s =>
      let t := specFeatureTemplate s
      { groupReplay := acc.groupReplay || t.groupReplay,
        oneToOne := acc.oneToOne || t.oneToOne,
        androidNoReplay :=
          if acc.androidNoReplay = some true ∨ t.androidNoReplay = some true
          then some true else none })
    { groupReplay := false, oneToOne := false, androidNoReplay := none }

/-- Spec-side: the sum of the amounts of the entries of one provider, window
and exact event type (used to phrase the claimed reconciliation net total). -/
def sumAmounts (provider : Provider) (startDate endDate : Nat) (t : String)
    (ledger : List LedgerEntry) : ℚ :=
  ((ledger.filter fun e =>
      decide (e.provider = provider ∧ startDate ≤ e.ts ∧ e.ts ≤ endDate ∧
        e.type = t)).map (·.amount)).sum

/-- Spec-side: the net total exactly as the claim words it —
`payment.succeeded` amounts added and `refund.succeeded` amounts subtracted,
no other event type contributing. -/
def claimNetTotal (provider : Provider) (startDate endDate : Nat)
    (ledger : List LedgerEntry) : ℚ :=
  sumAmounts provider startDate endDate "payment.succeeded" ledger -
    sumAmounts provider startDate endDate "refund.succeeded" ledger

/-! ## The state-changing operations of the modelled components, as one type
(used to state whole-system invariants such as ledger append-onlyness). -/

/-- Every state-changing operation of the modelled components: the state
machine (`SubscriptionManager`), the adapters, the webhook endpoints, the
dunning scheduler and the reconciliation auditor.  (The admin routes only
read the ledger.) -/
inductive Op where
  | updateSubscriptionStatus (now : Nat) (sid : String) (status : SubStatus)
  | renewSubscription (now : Nat) (sid : String)
  | cancelSubscription (now : Nat) (sid : String) (immediate : Bool)
  | handleFailedRenewal (now : Nat) (sid : String) (attempt : Nat)
  | checkGracePeriodExpiry (now : Nat)
  | handleInvoicePaymentFailed (now : Nat) (inv : StripeInvoice)
  | handleIAPRenewal (now : Nat) (sid : String)
  | handleIAPRenewalFailure (now : Nat) (sid : String)
  | handleIAPRefund (now : Nat) (sid : String)
  | stripeWebhook (now : Nat) (ev : StripeEvent) (dedupReadFails : Bool)
  | appstoreWebhook (now : Nat) (ev : AppleEvent) (dedupReadFails : Bool)
  | dunningSweep (now : Nat)
  | reconcile (now : Nat) (ext : Provider → ℚ)

/-- The effect of one operation on the state (for a thrown
`handleInvoicePaymentFailed` nothing was persisted). -/
def Op.apply : Op → SysState → SysState
  | .updateSubscriptionStatus now sid status, st =>
      SubscriptionManager.updateSubscriptionStatus now sid status st
  | .renewSubscription now sid, st => SubscriptionManager.renewSubscription now sid st
  | .cancelSubscription now sid immediate, st =>
      SubscriptionManager.cancelSubscription now sid immediate st
  | .handleFailedRenewal now sid attempt, st =>
      SubscriptionManager.handleFailedRenewal now sid attempt st
  | .checkGracePeriodExpiry now, st => SubscriptionManager.checkGracePeriodExpiry now st
  | .handleInvoicePaymentFailed now inv, st =>
      (StripeAdapter.handleInvoicePaymentFailed now inv st).getD st
  | .handleIAPRenewal now sid, st => IAPAdapter.handleIAPRenewal now sid st
  | .handleIAPRenewalFailure now sid, st => IAPAdapter.handleIAPRenewalFailure now sid st
  | .handleIAPRefund now sid, st => IAPAdapter.handleIAPRefund now sid st
  | .stripeWebhook now ev dedupReadFails, st => (stripeWebhookPost now ev dedupReadFails st).1
  | .appstoreWebhook now ev dedupReadFails, st =>
      (appstoreWebhookPost now ev dedupReadFails st).1
  | .dunningSweep now, st => Dunning.runDunningJob now st
  | .reconcile now ext, st => Reconcile.runReconcileJob now ext st

/-- Well-formed ledger ids: the Firestore-generated document ids of the
entries are exactly their positions. -/
def IdsOk (l : List LedgerEntry) : Prop :=
  l.map (·.lid) = List.range l.length

/-- The list of mismatch alert entries one reconciliation run appends, given
the per-provider results and the ledger length before the first write (used
to describe `runReconcileJob`'s writes). -/
def newMismatchEntries (now : Nat) :
    List Reconcile.ReconciliationResult → Nat → List LedgerEntry
  | [], _ => []
  | r :: rs, base =>
      if r.matched then newMismatchEntries now rs base
      else Reconcile.mismatchEntry now r base :: newMismatchEntries now rs (base + 1)

/-! ## Concrete fixtures used by witnesses and counterexamples -/

/-- An active Stripe subscription of user `u1`. -/
def exSubStripe : Subscription :=
  { id := "sub_1", uid := "u1", provider := .stripe, planId := "plan_a",
    status := .active, currentPeriodStart := 0, currentPeriodEnd := 30 * MS_PER_DAY,
    graceUntil := none, cancelAtPeriodEnd := false, platform := none,
    createdAt := 0, updatedAt := 0 }

/-- An active IAP (iOS) subscription of the same user `u1`. -/
def exSubIap : Subscription :=
  { id := "sub_2", uid := "u1", provider := .iap, planId := "com.edtech.group.premium",
    status := .active, currentPeriodStart := 0, currentPeriodEnd := 30 * MS_PER_DAY,
    graceUntil := none, cancelAtPeriodEnd := false, platform := some "ios",
    createdAt := 0, updatedAt := 0 }

/-- A user with one active Stripe and one active IAP subscription, whose
entitlement document is the per-feature OR of both templates. -/
def exStateBoth : SysState :=
  { subs := [exSubStripe, exSubIap],
    ents := [("u1", { groupReplay := true, oneToOne := true, androidNoReplay := none })],
    ledger := [], webhooks := [] }

/-- A single active Stripe subscription, no entitlements, empty ledger. -/
def exStateActive : SysState :=
  { subs := [exSubStripe], ents := [], ledger := [], webhooks := [] }

/-- The Stripe subscription in a terminal state. -/
def exStateCanceled : SysState :=
  { subs := [{ exSubStripe with status := .canceled }],
    ents := [], ledger := [], webhooks := [] }

/-- The IAP subscription in a terminal state. -/
def exStateIapCanceled : SysState :=
  { subs := [{ exSubIap with status := .canceled }],
    ents := [], ledger := [], webhooks := [] }

/-- The Stripe subscription in `past_due`, having entered at time `0` with a
7-day grace period. -/
def exStatePastDue : SysState :=
  { subs := [{ exSubStripe with status := .pastDue, graceUntil := some (7 * MS_PER_DAY) }],
    ents := [], ledger := [], webhooks := [] }

/-- A failed Stripe invoice for `sub_1` (10.00 due). -/
def exInvoice : StripeInvoice :=
  { invoiceId := "in_1", subscriptionId := some "sub_1", amountDue := 1000,
    currency := "USD", uid := "u1" }

/-- The Stripe webhook event carrying `exInvoice`, with event id `evt_1`. -/
def exStripeEvent : StripeEvent := .invoicePaymentFailed "evt_1" exInvoice

/-- A 1000.00 `payment.succeeded` ledger entry of the Stripe provider. -/
def exPaymentEntry : LedgerEntry :=
  { lid := 0, ts := 10, type := "payment.succeeded", refId := "in_9",
    provider := .stripe, amount := 1000, currency := "USD", uid := some "u1",
    meta := {} }

/-- A 50.00 `payout.paid` ledger entry of the Stripe provider. -/
def exPayoutEntry : LedgerEntry :=
  { lid := 0, ts := 10, type := "payout.paid", refId := "po_1",
    provider := .stripe, amount := 50, currency := "USD", uid := none,
    meta := {} }

/-- A state holding the Stripe subscription and the 1000.00 payment entry. -/
def exStateLedger : SysState :=
  { subs := [exSubStripe], ents := [], ledger := [exPaymentEntry], webhooks := [] }

/-- The nine daily sweep instants `0, 1, …, 8` days. -/
def exSweepTimes : List Nat := (List.range 9).map (· * MS_PER_DAY)

/-- The state after running the dunning sweep daily at days 0 through 8 over
the `past_due` subscription that entered grace at day 0. -/
def exAfterSweeps : SysState :=
  exSweepTimes.foldl (fun st t => Dunning.runDunningJob t st) exStatePastDue

/-! ## Helper lemmas about the store primitives -/

theorem findSub_setSub (subs : List Subscription) (sid : String)
    (f : Subscription → Subscription) (hid : ∀ s, (f s).id = s.id) :
    findSub (setSub subs sid f) sid = (findSub subs sid).map f := by
  induction subs with
  | nil => rfl
  | cons s rest ih =>
    by_cases h : s.id = sid
    · simp [setSub, findSub, h, hid s]
    · simpa [setSub, findSub, h] using ih

theorem mem_setSub_of_ne {s : Subscription} {subs : List Subscription}
    {sid : String} {f : Subscription → Subscription}
    (hmem : s ∈ subs) (hne : s.id ≠ sid) : s ∈ setSub subs sid f := by
  have : (if s.id = sid then f s else s) ∈ setSub subs sid f :=
    List.mem_map_of_mem _ hmem
  simpa [if_neg hne] using this

theorem findEnt_setEnt (l : List (String × EntFeatures)) (uid : String)
    (e : EntFeatures) : findEnt (setEnt l uid e) uid = some e := by
  induction l with
  | nil => simp [setEnt, findEnt]
  | cons p rest ih =>
    by_cases h : p.1 = uid
    · simp [setEnt, findEnt, h]
    · simpa [setEnt, findEnt, h] using ih

/-! ## Ledger append-only machinery -/

/-- One operation's effect on the ledger is sound: the previous entries are a
verbatim initial segment of the new ledger, and well-formed ids stay
well-formed. -/
def StepOk (st st' : SysState) : Prop :=
  (∃ new, st'.ledger = st.ledger ++ new) ∧ (IdsOk st.ledger → IdsOk st'.ledger)

theorem stepOk_of_ledger_eq {st st' : SysState} (h : st'.ledger = st.ledger) :
    StepOk st st' :=
  ⟨⟨[], by simp [h]⟩, fun hok => h ▸ hok⟩

theorem stepOk_refl (st : SysState) : StepOk st st :=
  stepOk_of_ledger_eq rfl

theorem StepOk.trans {a b c : SysState} (h1 : StepOk a b) (h2 : StepOk b c) :
    StepOk a c := by
  obtain ⟨⟨n1, e1⟩, i1⟩ := h1
  obtain ⟨⟨n2, e2⟩, i2⟩ := h2
  exact ⟨⟨n1 ++ n2, by simp [e2, e1]⟩, fun hok => i2 (i1 hok)⟩

theorem idsOk_ledgerAdd {l : List LedgerEntry} {e : Nat → LedgerEntry}
    (hl : (e l.length).lid = l.length) (hok : IdsOk l) :
    IdsOk (ledgerAdd l e) := by
  have hok' : l.map (·.lid) = List.range l.length := hok
  simp [IdsOk, ledgerAdd, List.range_succ, hl, hok']

theorem stepOk_ledgerAdd {st st' : SysState} {e : Nat → LedgerEntry}
    (h : st'.ledger = ledgerAdd st.ledger e)
    (hl : (e st.ledger.length).lid = st.ledger.length) : StepOk st st' :=
  ⟨⟨[e st.ledger.length], by simp [h, ledgerAdd]⟩,
   fun hok => h ▸ idsOk_ledgerAdd hl hok⟩

theorem stepOk_foldl {α : Type} (f : SysState → α → SysState)
    (hf : ∀ st a, StepOk st (f st a)) (L : List α) :
    ∀ st : SysState, StepOk st (L.foldl f st) := by
  induction L with
  | nil => intro st; exact stepOk_refl st
  | cons a L ih => intro st; exact (hf st a).trans (ih (f st a))

theorem fresh_ids_of_append {l new : List LedgerEntry}
    (h : IdsOk l) (h2 : IdsOk (l ++ new)) :
    ∀ e ∈ new, e.lid ∉ l.map (·.lid) := by
  intro e he hmem
  have hlt : e.lid < l.length := by
    rw [h] at hmem
    exact List.mem_range.mp hmem
  have hsplit : l.map (·.lid) ++ new.map (·.lid) =
      List.range l.length ++ (List.range new.length).map (l.length + ·) := by
    have := h2
    simp only [IdsOk, List.map_append, List.length_append] at this
    rw [this, List.range_add]
  rw [h] at hsplit
  have hnew : new.map (·.lid) = (List.range new.length).map (l.length + ·) :=
    List.append_cancel_left hsplit
  have : e.lid ∈ (List.range new.length).map (l.length + ·) := by
    rw [← hnew]
    exact List.mem_map_of_mem _ he
  obtain ⟨k, _, hk⟩ := List.mem_map.mp this
  omega

/-! ## Per-operation ledger facts -/

theorem grantEntitlements_ledger (sub : Subscription) (st : SysState) :
    (SubscriptionManager.grantEntitlements sub st).ledger = st.ledger := rfl

theorem revokeEntitlements_ledger (uid : String) (st : SysState) :
    (SubscriptionManager.revokeEntitlements uid st).ledger = st.ledger := rfl

theorem markWebhookProcessed_ledger (now : Nat) (dedupKey provider rawId status : String)
    (reason : Option String) (st : SysState) :
    (markWebhookProcessed now dedupKey provider rawId status reason st).ledger = st.ledger := rfl

theorem stepOk_into_ledgerAdd {st : SysState} (subs' : List Subscription)
    (ents' : List (String × EntFeatures)) (webhooks' : List DedupRecord)
    (f : Nat → LedgerEntry) (hf : ∀ n, (f n).lid = n) :
    StepOk st ⟨subs', ents', ledgerAdd st.ledger f, webhooks'⟩ := by
  constructor
  · exact ⟨[f st.ledger.length], rfl⟩
  · intro hok
    exact idsOk_ledgerAdd (hf st.ledger.length) hok

theorem updateSubscriptionStatus_ledger (now : Nat) (sid : String)
    (status : SubStatus) (st : SysState) :
    (SubscriptionManager.updateSubscriptionStatus now sid status st).ledger = st.ledger := by
  unfold SubscriptionManager.updateSubscriptionStatus
  dsimp only
  repeat' split
  all_goals rfl

theorem stepOk_updateSubscriptionStatus (now : Nat) (sid : String)
    (status : SubStatus) (st : SysState) :
    StepOk st (SubscriptionManager.updateSubscriptionStatus now sid status st) :=
  stepOk_of_ledger_eq (updateSubscriptionStatus_ledger now sid status st)

theorem stepOk_renewSubscription (now : Nat) (sid : String) (st : SysState) :
    StepOk st (SubscriptionManager.renewSubscription now sid st) := by
  unfold SubscriptionManager.renewSubscription
  cases h : findSub st.subs sid with
  | none => exact stepOk_refl st
  | some sub =>
    dsimp only
    simp only [grantEntitlements_ledger]
    exact stepOk_into_ledgerAdd _ _ _ _ fun n => rfl

theorem stepOk_cancelSubscription (now : Nat) (sid : String) (immediate : Bool)
    (st : SysState) :
    StepOk st (SubscriptionManager.cancelSubscription now sid immediate st) := by
  unfold SubscriptionManager.cancelSubscription
  cases h : findSub st.subs sid with
  | none => exact stepOk_refl st
  | some sub =>
    dsimp only
    split
    · split
      · exact stepOk_of_ledger_eq rfl
      · split
        · exact stepOk_into_ledgerAdd _ _ _ _ fun n => rfl
        · simp only [revokeEntitlements_ledger]
          exact stepOk_into_ledgerAdd _ _ _ _ fun n => rfl
    · exact stepOk_of_ledger_eq rfl

theorem stepOk_handleFailedRenewal (now : Nat) (sid : String) (attempt : Nat)
    (st : SysState) :
    StepOk st (SubscriptionManager.handleFailedRenewal now sid attempt st) := by
  unfold SubscriptionManager.handleFailedRenewal
  cases h : findSub st.subs sid with
  | none => exact stepOk_refl st
  | some sub =>
    dsimp only
    split
    · exact stepOk_updateSubscriptionStatus now sid .pastDue st
    · split
      · split
        · exact (stepOk_updateSubscriptionStatus now sid .canceled st).trans
            (stepOk_of_ledger_eq (revokeEntitlements_ledger _ _))
        · exact stepOk_refl st
      · exact stepOk_refl st

theorem stepOk_checkGracePeriodExpiry (now : Nat) (st : SysState) :
    StepOk st (SubscriptionManager.checkGracePeriodExpiry now st) := by
  unfold SubscriptionManager.checkGracePeriodExpiry
  exact stepOk_foldl _ (fun st' (s : Subscription) =>
    stepOk_updateSubscriptionStatus now s.id .canceled st') _ st

theorem stepOk_handleInvoicePaymentFailed (now : Nat) (inv : StripeInvoice)
    {st st' : SysState}
    (h : StripeAdapter.handleInvoicePaymentFailed now inv st = some st') :
    StepOk st st' := by
  unfold StripeAdapter.handleInvoicePaymentFailed at h
  cases hs : inv.subscriptionId with
  | none =>
    rw [hs] at h
    dsimp only at h
    simp only [Option.some.injEq] at h
    subst h
    exact stepOk_into_ledgerAdd _ _ _ _ fun n => rfl
  | some sid =>
    rw [hs] at h
    dsimp only at h
    cases hf : findSub st.subs sid with
    | none => rw [hf] at h; simp at h
    | some sub =>
      rw [hf] at h
      dsimp only at h
      simp only [Option.some.injEq] at h
      subst h
      exact stepOk_into_ledgerAdd _ _ _ _ fun n => rfl

theorem stepOk_handleIAPRenewal (now : Nat) (sid : String) (st : SysState) :
    StepOk st (IAPAdapter.handleIAPRenewal now sid st) := by
  unfold IAPAdapter.handleIAPRenewal
  cases h : findSub st.subs sid with
  | none => exact stepOk_refl st
  | some sub =>
    dsimp only
    exact stepOk_into_ledgerAdd _ _ _ _ fun n => rfl

theorem stepOk_handleIAPRenewalFailure (now : Nat) (sid : String) (st : SysState) :
    StepOk st (IAPAdapter.handleIAPRenewalFailure now sid st) := by
  unfold IAPAdapter.handleIAPRenewalFailure
  cases h : findSub st.subs sid with
  | none => exact stepOk_refl st
  | some sub =>
    dsimp only
    exact stepOk_into_ledgerAdd _ _ _ _ fun n => rfl

theorem stepOk_handleIAPRefund (now : Nat) (sid : String) (st : SysState) :
    StepOk st (IAPAdapter.handleIAPRefund now sid st) := by
  unfold IAPAdapter.handleIAPRefund
  cases h : findSub st.subs sid with
  | none => exact stepOk_refl st
  | some sub =>
    dsimp only
    exact stepOk_into_ledgerAdd _ _ _ _ fun n => rfl

theorem stepOk_dedup_tail (st1 : SysState) (now : Nat) (key prov eid status : String)
    (reason : Option String) (b : Bool) (resp : WebhookResponse) (r : WebhookResult) :
    StepOk st1 ((if b = true
      then (st1, resp)
      else (markWebhookProcessed now key prov eid status reason st1,
            WebhookResponse.ok r)).1) := by
  cases b
  · exact stepOk_of_ledger_eq rfl
  · exact stepOk_refl st1

theorem stepOk_stripeWebhookPost (now : Nat) (ev : StripeEvent)
    (dedupReadFails : Bool) (st : SysState) :
    StepOk st (stripeWebhookPost now ev dedupReadFails st).1 := by
  cases ev with
  | invoicePaymentFailed eventId inv =>
    unfold stripeWebhookPost stripeHandleWebhook
    dsimp only
    cases h : StripeAdapter.handleInvoicePaymentFailed now inv st with
    | none => exact stepOk_refl st
    | some st1 =>
      exact (stepOk_handleInvoicePaymentFailed now inv h).trans
        (stepOk_dedup_tail _ _ _ _ _ _ _ _ _ _)

theorem stepOk_appstoreWebhookPost (now : Nat) (ev : AppleEvent)
    (dedupReadFails : Bool) (st : SysState) :
    StepOk st (appstoreWebhookPost now ev dedupReadFails st).1 := by
  cases ev with
  | didFailToRenew otid =>
    exact (stepOk_handleIAPRenewalFailure now otid st).trans
      (stepOk_dedup_tail _ _ _ _ _ _ _ _ _ _)

theorem stepOk_processDunningAttempt (now : Nat) (att : Dunning.DunningAttempt)
    (st : SysState) :
    StepOk st (Dunning.processDunningAttempt now att st) := by
  unfold Dunning.processDunningAttempt
  dsimp only
  exact (stepOk_into_ledgerAdd _ _ _ _ fun n => rfl).trans
    (stepOk_handleFailedRenewal now att.subscriptionId att.attemptNumber _)

theorem stepOk_runDunningJob (now : Nat) (st : SysState) :
    StepOk st (Dunning.runDunningJob now st) := by
  unfold Dunning.runDunningJob
  exact (stepOk_foldl _ (fun st' att => stepOk_processDunningAttempt now att st') _ st).trans
    (stepOk_checkGracePeriodExpiry now _)

theorem stepOk_writeMismatch (now : Nat) (r : Reconcile.ReconciliationResult)
    (st : SysState) :
    StepOk st (Reconcile.writeMismatch now r st) := by
  unfold Reconcile.writeMismatch
  split
  · exact stepOk_refl st
  · exact stepOk_into_ledgerAdd _ _ _ _ fun n => rfl

theorem stepOk_runReconcileJob (now : Nat) (ext : Provider → ℚ) (st : SysState) :
    StepOk st (Reconcile.runReconcileJob now ext st) := by
  unfold Reconcile.runReconcileJob
  exact stepOk_foldl _ (fun st' r => stepOk_writeMismatch now r st') _ st

theorem stepOk_apply (op : Op) (st : SysState) : StepOk st (op.apply st) := by
  cases op with
  | updateSubscriptionStatus now sid status => exact stepOk_updateSubscriptionStatus now sid status st
  | renewSubscription now sid => exact stepOk_renewSubscription now sid st
  | cancelSubscription now sid immediate => exact stepOk_cancelSubscription now sid immediate st
  | handleFailedRenewal now sid attempt => exact stepOk_handleFailedRenewal now sid attempt st
  | checkGracePeriodExpiry now => exact stepOk_checkGracePeriodExpiry now st
  | handleInvoicePaymentFailed now inv =>
    show StepOk st ((StripeAdapter.handleInvoicePaymentFailed now inv st).getD st)
    cases h : StripeAdapter.handleInvoicePaymentFailed now inv st with
    | none => exact stepOk_refl st
    | some st' => exact stepOk_handleInvoicePaymentFailed now inv h
  | handleIAPRenewal now sid => exact stepOk_handleIAPRenewal now sid st
  | handleIAPRenewalFailure now sid => exact stepOk_handleIAPRenewalFailure now sid st
  | handleIAPRefund now sid => exact stepOk_handleIAPRefund now sid st
  | stripeWebhook now ev dedupReadFails => exact stepOk_stripeWebhookPost now ev dedupReadFails st
  | appstoreWebhook now ev dedupReadFails => exact stepOk_appstoreWebhookPost now ev dedupReadFails st
  | dunningSweep now => exact stepOk_runDunningJob now st
  | reconcile now ext => exact stepOk_runReconcileJob now ext st

/-! ## Claim C1 -/

/-- C1: the claim says a second sequential delivery of the same
`(provider, externalEventId)` returns the recorded already-processed outcome
without re-executing state machine logic and without writing further ledger
entries.  Evaluating the Stripe endpoint at the failing input shows the code
answers `already_processed` on the duplicate but has already re-run the
adapter: the subscription update is applied again and a second
`payment.failed` ledger entry is appended, because the dedup check runs after
the side effects.  The App Store endpoint behaves the same way. -/
theorem C1_duplicate_delivery_repeats_side_effects :
    (stripeWebhookPost 5 exStripeEvent false exStateActive).2 =
      WebhookResponse.ok { eventId := "evt_1", eventType := "invoice.payment_failed",
                           processed := true, reason := none } ∧
    (stripeWebhookPost 5 exStripeEvent false exStateActive).1.ledger.length = 1 ∧
    (stripeWebhookPost 6 exStripeEvent false
        (stripeWebhookPost 5 exStripeEvent false exStateActive).1).2 =
      WebhookResponse.alreadyProcessed "evt_1" ∧
    (stripeWebhookPost 6 exStripeEvent false
        (stripeWebhookPost 5 exStripeEvent false exStateActive).1).1.ledger.map (·.type) =
      ["payment.failed", "payment.failed"] ∧
    (appstoreWebhookPost 6 (.didFailToRenew "sub_2") false
        (appstoreWebhookPost 5 (.didFailToRenew "sub_2") false
          { subs := [exSubIap], ents := [], ledger := [], webhooks := [] }).1).2 =
      WebhookResponse.alreadyProcessed "sub_2" ∧
    (appstoreWebhookPost 6 (.didFailToRenew "sub_2") false
        (appstoreWebhookPost 5 (.didFailToRenew "sub_2") false
          { subs := [exSubIap], ents := [], ledger := [], webhooks := [] }).1).1.ledger.length = 2 := by
  decide

/-! ## Claim C2 -/

/-- C2 counterexample: the claim says a failing dedup-store read makes
admission fail closed (a transient error, no side effects, the event never
treated as new).  In the code `isWebhookProcessed` catches the error and
returns `false`, so a duplicate delivery whose dedup read fails is treated as
a brand-new event: the endpoint answers with the normal success response (not
a transient error, not the recorded outcome) and a second ledger entry has
been appended. -/
theorem C2_counterexample_failed_dedup_read_fails_open :
    isWebhookProcessed (Except.error ()) = false ∧
    (stripeWebhookPost 6 exStripeEvent true
        (stripeWebhookPost 5 exStripeEvent false exStateActive).1).2 =
      WebhookResponse.ok { eventId := "evt_1", eventType := "invoice.payment_failed",
                           processed := true, reason := none } ∧
    (stripeWebhookPost 6 exStripeEvent true
        (stripeWebhookPost 5 exStripeEvent false exStateActive).1).1.ledger.length = 2 := by
  decide

/-- C2 (amended): when the dedup-store read fails, the caught error makes
`isWebhookProcessed` return `false`, and the endpoint behaves exactly as it
does for a never-seen event: the adapter result is recorded and the normal
success response is returned — admission fails open, relying on the write
path alone to surface store errors. -/
theorem C2_amended_failed_dedup_read_treated_as_new (now : Nat) (ev : StripeEvent)
    (st : SysState) :
    stripeWebhookPost now ev true st =
      match stripeHandleWebhook now ev st with
      | none => (st, WebhookResponse.badRequest)
      | some (st1, result) =>
          (markWebhookProcessed now (generateWebhookDedupKey "stripe" result.eventId)
            "stripe" result.eventId
            (if result.processed then "processed" else "ignored") result.reason st1,
           WebhookResponse.ok result) := by
  unfold stripeWebhookPost
  cases h : stripeHandleWebhook now ev st with
  | none => rfl
  | some p => rfl

/-! ## Claims C3 to C6: lemmas about `updateSubscriptionStatus` -/

theorem hasOther_true_of_mem (uid excl : String) (st : SysState) (o : Subscription)
    (hmem : o ∈ st.subs) (huid : o.uid = uid) (hne : o.id ≠ excl)
    (hstatus : o.status = .active ∨ o.status = .trialing ∨ o.status = .pastDue) :
    SubscriptionManager.hasOtherActiveSubscriptions uid excl st = true := by
  unfold SubscriptionManager.hasOtherActiveSubscriptions
  rw [List.any_eq_true]
  refine ⟨o, List.mem_filter.mpr ⟨hmem, ?_⟩, by simp [hne]⟩
  rcases hstatus with h | h | h <;> simp [huid, h]

theorem updateStatus_subs_of_found (now : Nat) (sid : String) (status : SubStatus)
    (st : SysState) (sub : Subscription) (hfind : findSub st.subs sid = some sub) :
    (SubscriptionManager.updateSubscriptionStatus now sid status st).subs =
      setSub st.subs sid (fun s =>
        if status = .pastDue then
          { s with status := status, updatedAt := now,
                   graceUntil := some (now + GRACE_DAYS * MS_PER_DAY) }
        else { s with status := status, updatedAt := now }) := by
  unfold SubscriptionManager.updateSubscriptionStatus
  rw [hfind]
  dsimp only
  rw [findSub_setSub _ _ _ (fun s => by split <;> rfl), hfind]
  repeat' split
  all_goals rfl

theorem grantEntitlements_subs (sub : Subscription) (st : SysState) :
    (SubscriptionManager.grantEntitlements sub st).subs = st.subs := rfl

/-! ## Claim C3 -/

/-- C3 counterexample: user `u1` holds an active Stripe subscription
(`sub_1`, contributing `oneToOne`) and an active IAP subscription (`sub_2`).
The claim says every revocation path checks for other still-entitled
subscriptions before clearing a feature.  But `handleIAPRefund` on `sub_2`
overwrites the whole feature set with `false` while `sub_1` is still active:
`oneToOne` — contributed by the other provider — is lost. -/
theorem C3_counterexample_iap_refund_wipes_other_providers_features :
    (findEnt exStateBoth.ents "u1").map (·.oneToOne) = some true ∧
    (findSub (IAPAdapter.handleIAPRefund 9 "sub_2" exStateBoth).subs "sub_1").map (·.status) =
      some .active ∧
    findEnt (IAPAdapter.handleIAPRefund 9 "sub_2" exStateBoth).ents "u1" =
      some { groupReplay := false, oneToOne := false, androidNoReplay := some false } := by
  decide

/-- C3 (amended): revocation through the state machine's
`updateSubscriptionStatus` does check `hasOtherActiveSubscriptions` — when
the user holds another subscription in an entitled status, cancelling one
leaves the entitlement document untouched.  (The IAP refund path has no such
check, per the counterexample.) -/
theorem C3_amended_state_machine_cancel_preserves_other_features
    (now : Nat) (sid : String) (st : SysState) (sub other : Subscription)
    (hfind : findSub st.subs sid = some sub)
    (hmem : other ∈ st.subs) (huid : other.uid = sub.uid) (hne : other.id ≠ sid)
    (hstatus : other.status = .active ∨ other.status = .trialing ∨ other.status = .pastDue) :
    (SubscriptionManager.updateSubscriptionStatus now sid .canceled st).ents = st.ents := by
  unfold SubscriptionManager.updateSubscriptionStatus
  rw [hfind]
  dsimp only
  rw [findSub_setSub _ _ _ (fun s => by split <;> rfl), hfind, Option.map_some']
  dsimp only
  have hpd : ¬(SubStatus.canceled = SubStatus.pastDue) := by decide
  simp only [if_neg hpd]
  split
  · rename_i hc
    exact absurd hc (by decide)
  · split
    · split
      · rfl
      · rename_i hother
        exact absurd
          (hasOther_true_of_mem _ sid _ other (mem_setSub_of_ne hmem hne) huid hne hstatus)
          hother
    · rfl

/-- C3 witness: the concrete two-provider user of the counterexample, with
the cancel routed through the state machine instead: the entitlement
document survives. -/
theorem C3_witness :
    findSub exStateBoth.subs "sub_2" = some exSubIap ∧
    exSubStripe ∈ exStateBoth.subs ∧
    exSubStripe.uid = exSubIap.uid ∧
    exSubStripe.id ≠ "sub_2" ∧
    (exSubStripe.status = .active ∨ exSubStripe.status = .trialing ∨
      exSubStripe.status = .pastDue) ∧
    (SubscriptionManager.updateSubscriptionStatus 9 "sub_2" .canceled exStateBoth).ents =
      exStateBoth.ents :=
  ⟨by decide, by decide, by decide, by decide, by decide,
   C3_amended_state_machine_cancel_preserves_other_features 9 "sub_2" exStateBoth
     exSubIap exSubStripe (by decide) (by decide) (by decide) (by decide) (by decide)⟩

/-! ## Claim C4 -/

/-- C4 counterexample: with both subscriptions active and the entitlement
document equal to the per-feature OR of the two templates, re-granting the
Stripe subscription (a status update to `active`) writes the Stripe template
over the document: `groupReplay` becomes `false` although the IAP
subscription is still active, so the document no longer equals the OR — the
claimed invariant is not preserved by grants. -/
theorem C4_counterexample_stripe_grant_breaks_union :
    findEnt exStateBoth.ents "u1" = some (specEntitlementUnion exStateBoth.subs "u1") ∧
    (findSub (SubscriptionManager.updateSubscriptionStatus 9 "sub_1" .active exStateBoth).subs
        "sub_2").map (·.status) = some .active ∧
    specEntitlementUnion
        (SubscriptionManager.updateSubscriptionStatus 9 "sub_1" .active exStateBoth).subs "u1" =
      { groupReplay := true, oneToOne := true, androidNoReplay := none } ∧
    findEnt (SubscriptionManager.updateSubscriptionStatus 9 "sub_1" .active exStateBoth).ents
        "u1" =
      some { groupReplay := false, oneToOne := true, androidNoReplay := none } := by
  decide

/-- C4 (amended): each grant is last-writer-wins with the granting provider's
template, not an OR across subscriptions: after `grantEntitlements` the
user's features equal the provider template merged over the previous
document — a Stripe grant forces `groupReplay := false` and an IAP grant
forces `oneToOne := false`, regardless of the user's other subscriptions. -/
theorem C4_amended_grant_overwrites_with_provider_template
    (sub : Subscription) (st : SysState) :
    (sub.provider = .stripe →
      findEnt (SubscriptionManager.grantEntitlements sub st).ents sub.uid =
        some { oneToOne := true, groupReplay := false,
               androidNoReplay := (findEnt st.ents sub.uid).bind (·.androidNoReplay) }) ∧
    (sub.provider = .iap →
      findEnt (SubscriptionManager.grantEntitlements sub st).ents sub.uid =
        some { groupReplay := true, oneToOne := false,
               androidNoReplay := if sub.platform = some "android" then some true
                 else (findEnt st.ents sub.uid).bind (·.androidNoReplay) }) := by
  constructor
  · intro hp
    unfold SubscriptionManager.grantEntitlements EntitlementService.updateEntitlements
    rw [hp]
    dsimp only
    rw [findEnt_setEnt]
    rfl
  · intro hp
    unfold SubscriptionManager.grantEntitlements EntitlementService.updateEntitlements
    rw [hp]
    dsimp only
    rw [findEnt_setEnt]
    by_cases hplat : sub.platform = some "android" <;>
      simp [EntitlementService.mergeFeatures, hplat]

/-- C4 witness: granting the concrete Stripe subscription over the
two-provider user's document yields exactly the Stripe template merged over
the previous value. -/
theorem C4_witness :
    exSubStripe.provider = Provider.stripe ∧
    findEnt (SubscriptionManager.grantEntitlements exSubStripe exStateBoth).ents
        exSubStripe.uid =
      some { oneToOne := true, groupReplay := false,
             androidNoReplay :=
               (findEnt exStateBoth.ents exSubStripe.uid).bind (·.androidNoReplay) } :=
  ⟨rfl, (C4_amended_grant_overwrites_with_provider_template exSubStripe exStateBoth).1 rfl⟩

/-! ## Claim C5 -/

/-- C5 counterexample: the claim says a lifecycle-advancing transition on a
terminal-state subscription is rejected and leaves the record unchanged.
Evaluating the code on a canceled subscription shows re-activation is
silently applied: `updateSubscriptionStatus(..., 'active')` flips the status
to `active`, and `handleIAPRenewal` re-activates a canceled IAP
subscription. -/
theorem C5_counterexample_terminal_transition_silently_applied :
    (findSub exStateCanceled.subs "sub_1").map (·.status) = some .canceled ∧
    (findSub (SubscriptionManager.updateSubscriptionStatus 9 "sub_1" .active
        exStateCanceled).subs "sub_1").map (·.status) = some .active ∧
    (SubscriptionManager.updateSubscriptionStatus 9 "sub_1" .active
        exStateCanceled).subs ≠ exStateCanceled.subs ∧
    (findSub (IAPAdapter.handleIAPRenewal 9 "sub_2" exStateIapCanceled).subs "sub_2").map
        (·.status) = some .active := by
  decide

/-- C5 (amended): no terminal-state guard exists — `updateSubscriptionStatus`
and `handleIAPRenewal` apply a transition to any found subscription
unconditionally, so re-activating a subscription in a terminal state is
silently applied (status becomes `active`, `updatedAt` advances). -/
theorem C5_amended_terminal_transitions_applied_unguarded
    (now : Nat) (sid : String) (st : SysState) (sub : Subscription)
    (hfind : findSub st.subs sid = some sub)
    (hterm : sub.status = .canceled ∨ sub.status = .ended) :
    findSub (SubscriptionManager.updateSubscriptionStatus now sid .active st).subs sid =
      some { sub with status := .active, updatedAt := now } ∧
    findSub (IAPAdapter.handleIAPRenewal now sid st).subs sid =
      some { sub with
             status := .active, currentPeriodStart := sub.currentPeriodEnd,
             currentPeriodEnd := sub.currentPeriodEnd + 30 * MS_PER_DAY,
             graceUntil := none, updatedAt := now } := by
  constructor
  · rw [updateStatus_subs_of_found now sid .active st sub hfind,
       findSub_setSub _ _ _ (fun s => by split <;> rfl), hfind]
    rfl
  · unfold IAPAdapter.handleIAPRenewal
    rw [hfind]
    dsimp only
    rw [findSub_setSub _ _ _ (fun s => by rfl), hfind]
    rfl

/-- C5 witness: re-activating the concrete canceled Stripe subscription. -/
theorem C5_witness :
    findSub exStateCanceled.subs "sub_1" = some { exSubStripe with status := .canceled } ∧
    findSub (SubscriptionManager.updateSubscriptionStatus 9 "sub_1" .active
        exStateCanceled).subs "sub_1" =
      some { exSubStripe with status := .active, updatedAt := 9 } ∧
    findSub (IAPAdapter.handleIAPRenewal 9 "sub_1" exStateCanceled).subs "sub_1" =
      some { exSubStripe with
             status := .active,
             currentPeriodStart := exSubStripe.currentPeriodEnd,
             currentPeriodEnd := exSubStripe.currentPeriodEnd + 30 * MS_PER_DAY,
             graceUntil := none, updatedAt := 9 } :=
  ⟨by decide,
   (C5_amended_terminal_transitions_applied_unguarded 9 "sub_1" exStateCanceled
      { exSubStripe with status := .canceled } (by decide) (Or.inl rfl)).1,
   (C5_amended_terminal_transitions_applied_unguarded 9 "sub_1" exStateCanceled
      { exSubStripe with status := .canceled } (by decide) (Or.inl rfl)).2⟩

/-! ## Claim C6 -/

/-- C6 counterexample: the claim says `graceUntil` is set iff the status is
`past_due`.  But the Stripe adapter's `handleInvoicePaymentFailed` moves a
subscription into `past_due` without setting `graceUntil` at all, and a
cancellation of a `past_due` subscription leaves the stale `graceUntil` on
the now-canceled record. -/
theorem C6_counterexample_grace_iff_pastdue_fails :
    (StripeAdapter.handleInvoicePaymentFailed 9 exInvoice exStateActive).map
        (fun s => (findSub s.subs "sub_1").map (fun x => (x.status, x.graceUntil))) =
      some (some (.pastDue, none)) ∧
    (findSub (SubscriptionManager.updateSubscriptionStatus (8 * MS_PER_DAY) "sub_1"
        .canceled exStatePastDue).subs "sub_1").map (fun x => (x.status, x.graceUntil)) =
      some (.canceled, some (7 * MS_PER_DAY)) := by
  decide

/-- C6 (amended): `updateSubscriptionStatus` entering `past_due` does set
`graceUntil := now + GRACE_DAYS` (as does `handleIAPRenewalFailure`), and a
renewal clears it; but a transition to `canceled` leaves `graceUntil`
exactly as it was, so the set-iff-past-due invariant is not maintained by
every operation (and `handleInvoicePaymentFailed` never sets it, per the
counterexample). -/
theorem C6_amended_grace_field_behaviour
    (now : Nat) (sid : String) (st : SysState) (sub : Subscription)
    (hfind : findSub st.subs sid = some sub) :
    (findSub (SubscriptionManager.updateSubscriptionStatus now sid .pastDue st).subs sid =
      some { sub with
             status := .pastDue, updatedAt := now,
             graceUntil := some (now + GRACE_DAYS * MS_PER_DAY) }) ∧
    (findSub (SubscriptionManager.renewSubscription now sid st).subs sid =
      some { sub with
             status := .active, currentPeriodStart := sub.currentPeriodEnd,
             currentPeriodEnd := sub.currentPeriodEnd + 30 * MS_PER_DAY,
             graceUntil := none, updatedAt := now }) ∧
    (findSub (IAPAdapter.handleIAPRenewalFailure now sid st).subs sid =
      some { sub with
             status := .pastDue,
             graceUntil := some (now + GRACE_DAYS * MS_PER_DAY), updatedAt := now }) ∧
    (findSub (SubscriptionManager.updateSubscriptionStatus now sid .canceled st).subs sid =
      some { sub with status := .canceled, updatedAt := now }) := by
  refine ⟨?_, ?_, ?_, ?_⟩
  · rw [updateStatus_subs_of_found now sid .pastDue st sub hfind,
       findSub_setSub _ _ _ (fun s => by split <;> rfl), hfind]
    rfl
  · unfold SubscriptionManager.renewSubscription
    rw [hfind]
    dsimp only
    simp only [grantEntitlements_subs]
    rw [findSub_setSub _ _ _ (fun s => by rfl), hfind]
    rfl
  · unfold IAPAdapter.handleIAPRenewalFailure
    rw [hfind]
    dsimp only
    rw [findSub_setSub _ _ _ (fun s => by rfl), hfind]
    rfl
  · rw [updateStatus_subs_of_found now sid .canceled st sub hfind,
       findSub_setSub _ _ _ (fun s => by split <;> rfl), hfind]
    rfl

/-- C6 witness: the concrete active Stripe subscription, exercising all four
conjuncts of the amended statement at `now = 4`. -/
theorem C6_witness :
    (findSub (SubscriptionManager.updateSubscriptionStatus 4 "sub_1" .pastDue
        exStateActive).subs "sub_1" =
      some { exSubStripe with
             status := .pastDue, updatedAt := 4,
             graceUntil := some (4 + GRACE_DAYS * MS_PER_DAY) }) ∧
    (findSub (SubscriptionManager.renewSubscription 4 "sub_1" exStateActive).subs "sub_1" =
      some { exSubStripe with
             status := .active,
             currentPeriodStart := exSubStripe.currentPeriodEnd,
             currentPeriodEnd := exSubStripe.currentPeriodEnd + 30 * MS_PER_DAY,
             graceUntil := none, updatedAt := 4 }) ∧
    (findSub (IAPAdapter.handleIAPRenewalFailure 4 "sub_1" exStateActive).subs "sub_1" =
      some { exSubStripe with
             status := .pastDue,
             graceUntil := some (4 + GRACE_DAYS * MS_PER_DAY), updatedAt := 4 }) ∧
    (findSub (SubscriptionManager.updateSubscriptionStatus 4 "sub_1" .canceled
        exStateActive).subs "sub_1" =
      some { exSubStripe with status := .canceled, updatedAt := 4 }) :=
  C6_amended_grace_field_behaviour 4 "sub_1" exStateActive exSubStripe (by decide)

/-! ## Claim C7 -/

/-- C7: the claim says sweeps act only at day-counts 0/1, 3 and 7 and drive
cancellation exactly once at or after day 7.  The milestone mapping itself
matches the code (`determineAttemptNumber`), but the day count is recomputed
from `updatedAt`, which milestone-0 processing itself resets: running the
sweep daily from the day the subscription entered `past_due`, every one of
the nine sweeps fires milestone 0 (nine dunning ledger entries, one per day,
including day 2 where the claim demands no action), the grace deadline is
pushed to day 15, and the subscription is still `past_due` after day 8 —
cancellation never happens. -/
theorem C7_daily_sweeps_repeat_milestone_zero_and_never_cancel :
    Dunning.determineAttemptNumber 0 = some 0 ∧
    Dunning.determineAttemptNumber 1 = some 0 ∧
    Dunning.determineAttemptNumber 2 = none ∧
    Dunning.determineAttemptNumber 3 = some 1 ∧
    Dunning.determineAttemptNumber 4 = none ∧
    Dunning.determineAttemptNumber 7 = some 2 ∧
    Dunning.determineAttemptNumber 8 = none ∧
    exAfterSweeps.ledger.length = 9 ∧
    exAfterSweeps.ledger.map (·.meta.dunningAttempt) = List.replicate 9 (some 0) ∧
    exAfterSweeps.ledger.map (·.ts) = exSweepTimes ∧
    (findSub exAfterSweeps.subs "sub_1").map (·.status) = some .pastDue ∧
    (findSub exAfterSweeps.subs "sub_1").map (·.graceUntil) =
      some (some (15 * MS_PER_DAY)) := by
  decide

/-! ## Claim C10 -/

/-- C10: whenever the dunning sweep processes a milestone-0 attempt for a
subscription already in `past_due`, `handleFailedRenewal` re-applies
`past_due`, so afterwards `graceUntil = now + GRACE_DAYS` and
`updatedAt = now`; since `calculateDaysSinceFailure` is derived from
`updatedAt`, the day count right after the sweep is 0 again — each such run
extends the grace deadline and restarts the milestone clock. -/
theorem C10_milestone_zero_resets_grace_clock (now : Nat)
    (att : Dunning.DunningAttempt) (st : SysState) (sub : Subscription)
    (hfind : findSub st.subs att.subscriptionId = some sub)
    (hpd : sub.status = .pastDue) (hatt : att.attemptNumber = 0) :
    findSub (Dunning.processDunningAttempt now att st).subs att.subscriptionId =
      some { sub with
             status := .pastDue, updatedAt := now,
             graceUntil := some (now + GRACE_DAYS * MS_PER_DAY) } ∧
    Dunning.calculateDaysSinceFailure now
      { sub with
        status := .pastDue, updatedAt := now,
        graceUntil := some (now + GRACE_DAYS * MS_PER_DAY) } = 0 := by
  constructor
  · unfold Dunning.processDunningAttempt SubscriptionManager.handleFailedRenewal
    dsimp only
    have hfind1 : findSub
        ({ st with ledger := ledgerAdd st.ledger fun lid =>
            { lid := lid, ts := now, type := "payment.failed",
              refId := att.subscriptionId, provider := .stripe, amount := 0,
              currency := "USD", uid := some att.uid,
              meta := { dunningAttempt := some att.attemptNumber,
                        daysSinceFailure := some att.daysSinceFailure } } } : SysState).subs
        att.subscriptionId = some sub := hfind
    rw [hfind1]
    dsimp only
    rw [if_pos hatt]
    rw [updateStatus_subs_of_found now att.subscriptionId .pastDue _ sub hfind1,
       findSub_setSub _ _ _ (fun s => by split <;> rfl), hfind1]
    rfl
  · unfold Dunning.calculateDaysSinceFailure
    dsimp only
    rw [Nat.dist_self]
    decide

/-- C10 witness: the concrete `past_due` subscription processed as a
milestone-0 attempt at `now` = day 2. -/
theorem C10_witness :
    findSub exStatePastDue.subs "sub_1" =
      some { exSubStripe with status := .pastDue, graceUntil := some (7 * MS_PER_DAY) } ∧
    ({ exSubStripe with status := .pastDue, graceUntil := some (7 * MS_PER_DAY) }
        : Subscription).status = .pastDue ∧
    findSub (Dunning.processDunningAttempt (2 * MS_PER_DAY)
        { subscriptionId := "sub_1", uid := "u1", attemptNumber := 0, daysSinceFailure := 1 }
        exStatePastDue).subs "sub_1" =
      some { exSubStripe with
             status := .pastDue, updatedAt := 2 * MS_PER_DAY,
             graceUntil := some (2 * MS_PER_DAY + GRACE_DAYS * MS_PER_DAY) } ∧
    Dunning.calculateDaysSinceFailure (2 * MS_PER_DAY)
      { exSubStripe with
        status := .pastDue, updatedAt := 2 * MS_PER_DAY,
        graceUntil := some (2 * MS_PER_DAY + GRACE_DAYS * MS_PER_DAY) } = 0 :=
  ⟨by decide, by decide,
   (C10_milestone_zero_resets_grace_clock (2 * MS_PER_DAY)
      { subscriptionId := "sub_1", uid := "u1", attemptNumber := 0, daysSinceFailure := 1 }
      exStatePastDue { exSubStripe with status := .pastDue, graceUntil := some (7 * MS_PER_DAY) }
      (by decide) (by decide) (by decide)).1,
   (C10_milestone_zero_resets_grace_clock (2 * MS_PER_DAY)
      { subscriptionId := "sub_1", uid := "u1", attemptNumber := 0, daysSinceFailure := 1 }
      exStatePastDue { exSubStripe with status := .pastDue, graceUntil := some (7 * MS_PER_DAY) }
      (by decide) (by decide) (by decide)).2⟩

/-! ## Claim C9 -/

/-- C9: every modelled state-changing operation of the system — the state
machine, the adapters, the webhook endpoints, the dunning sweep and the
reconciliation run — leaves the existing ledger entries verbatim as an
initial segment and only appends: no entry is updated or deleted, ids stay
well formed, and no appended entry shares an id with an existing one.  (The
admin routes only read the ledger.) -/
theorem C9_ledger_append_only (op : Op) (st : SysState) (h : IdsOk st.ledger) :
    ∃ new, (op.apply st).ledger = st.ledger ++ new ∧
      IdsOk (op.apply st).ledger ∧
      ∀ e ∈ new, e.lid ∉ st.ledger.map (·.lid) := by
  obtain ⟨⟨new, hnew⟩, hids⟩ := stepOk_apply op st
  exact ⟨new, hnew, hids h, fresh_ids_of_append h (hnew ▸ hids h)⟩

/-- C9 witness: a renewal appended to a state already holding one ledger
entry. -/
theorem C9_witness :
    IdsOk exStateLedger.ledger ∧
    ∃ new, ((Op.renewSubscription 9 "sub_1").apply exStateLedger).ledger =
        exStateLedger.ledger ++ new ∧
      IdsOk ((Op.renewSubscription 9 "sub_1").apply exStateLedger).ledger ∧
      ∀ e ∈ new, e.lid ∉ exStateLedger.ledger.map (·.lid) :=
  ⟨by rfl, C9_ledger_append_only (Op.renewSubscription 9 "sub_1") exStateLedger (by rfl)⟩

/-! ## Claim C8 -/

theorem foldl_signed (l : List LedgerEntry) : ∀ x : ℚ,
    l.foldl (fun total en => if en.type = "refund.succeeded" then total - en.amount
      else total + en.amount) x
      = x + (l.map (fun en => if en.type = "refund.succeeded" then -en.amount
          else en.amount)).sum := by
  induction l with
  | nil => intro x; simp
  | cons en l ih =>
    intro x
    simp only [List.foldl_cons, List.map_cons, List.sum_cons, ih]
    split <;> ring

theorem getLedgerTotal_append_single (p : Provider) (s e : Nat)
    (l : List LedgerEntry) (x : LedgerEntry) :
    Reconcile.getLedgerTotal p s e (l ++ [x]) =
      Reconcile.getLedgerTotal p s e l +
        (if x.provider = p ∧ s ≤ x.ts ∧ x.ts ≤ e then
          (if x.type = "payment.succeeded" ∨ x.type = "payout.paid" then x.amount
           else if x.type = "refund.succeeded" then -x.amount else 0)
         else 0) := by
  unfold Reconcile.getLedgerTotal
  rw [List.filter_append, List.foldl_append, foldl_signed]
  congr 1
  by_cases hA : x.provider = p
  all_goals by_cases hB : s ≤ x.ts
  all_goals by_cases hC : x.ts ≤ e
  all_goals by_cases h1 : x.type = "payment.succeeded"
  all_goals by_cases h2 : x.type = "payout.paid"
  all_goals by_cases h3 : x.type = "refund.succeeded"
  all_goals simp [Reconcile.financialTypes, List.filter_cons, List.filter_nil,
    hA, hB, hC, h1, h2, h3]

theorem writeMismatch_of_matched (now : Nat) (r : Reconcile.ReconciliationResult)
    (st : SysState) (h : r.matched = true) :
    Reconcile.writeMismatch now r st = st := by
  unfold Reconcile.writeMismatch
  rw [if_pos h]

theorem writeMismatch_of_unmatched (now : Nat) (r : Reconcile.ReconciliationResult)
    (st : SysState) (h : ¬r.matched = true) :
    Reconcile.writeMismatch now r st =
      { st with ledger := ledgerAdd st.ledger (Reconcile.mismatchEntry now r) } := by
  unfold Reconcile.writeMismatch
  rw [if_neg h]

theorem foldl_writeMismatch (now : Nat) (rs : List Reconcile.ReconciliationResult) :
    ∀ st : SysState,
      (rs.foldl (fun acc r => Reconcile.writeMismatch now r acc) st).ledger =
        st.ledger ++ newMismatchEntries now rs st.ledger.length := by
  induction rs with
  | nil => intro st; simp [newMismatchEntries]
  | cons r rs ih =>
    intro st
    simp only [List.foldl_cons, newMismatchEntries]
    by_cases hm : r.matched
    · rw [if_pos hm, writeMismatch_of_matched now r st hm]
      exact ih st
    · rw [if_neg hm, writeMismatch_of_unmatched now r st hm, ih]
      simp [ledgerAdd]

theorem mem_newMismatchEntries (now : Nat) :
    ∀ (rs : List Reconcile.ReconciliationResult) (base : Nat) (x : LedgerEntry),
      x ∈ newMismatchEntries now rs base →
      ∃ r ∈ rs, r.matched = false ∧ ∃ b, x = Reconcile.mismatchEntry now r b := by
  intro rs
  induction rs with
  | nil =>
    intro base x hx
    simp [newMismatchEntries] at hx
  | cons r rs ih =>
    intro base x hx
    simp only [newMismatchEntries] at hx
    by_cases hm : r.matched
    · rw [if_pos hm] at hx
      obtain ⟨r2, hr2, hmat, b, hb⟩ := ih base x hx
      exact ⟨r2, List.mem_cons_of_mem _ hr2, hmat, b, hb⟩
    · rw [if_neg hm] at hx
      rcases List.mem_cons.mp hx with h | h
      · exact ⟨r, List.mem_cons_self _ _, by simpa using hm, base, h⟩
      · obtain ⟨r2, hr2, hmat, b, hb⟩ := ih (base + 1) x h
        exact ⟨r2, List.mem_cons_of_mem _ hr2, hmat, b, hb⟩

theorem exists_mem_newMismatchEntries (now : Nat) :
    ∀ (rs : List Reconcile.ReconciliationResult) (base : Nat)
      (r : Reconcile.ReconciliationResult),
      r ∈ rs → r.matched = false →
      ∃ b, Reconcile.mismatchEntry now r b ∈ newMismatchEntries now rs base := by
  intro rs
  induction rs with
  | nil =>
    intro base r h
    simp at h
  | cons r0 rs ih =>
    intro base r hr hm
    rcases List.mem_cons.mp hr with h | h
    · subst h
      simp only [newMismatchEntries]
      rw [if_neg (by simp [hm])]
      exact ⟨base, List.mem_cons_self _ _⟩
    · by_cases hm0 : r0.matched
      · simp only [newMismatchEntries]
        rw [if_pos hm0]
        exact ih base r h hm
      · simp only [newMismatchEntries]
        rw [if_neg hm0]
        obtain ⟨b, hb⟩ := ih (base + 1) r h hm
        exact ⟨b, List.mem_cons_of_mem _ hb⟩

/-- C8 counterexample: the claim says only `payment.succeeded` (added) and
`refund.succeeded` (subtracted) contribute to the net total; but
`getLedgerTotal` also adds `payout.paid` amounts: a lone 50.00 payout entry
yields a code total of 50 where the claimed formula yields 0. -/
theorem C8_counterexample_payout_contributes_to_total :
    Reconcile.getLedgerTotal Provider.stripe 0 100 [exPayoutEntry] = 50 ∧
    claimNetTotal Provider.stripe 0 100 [exPayoutEntry] = 0 := by
  constructor
  · simp [Reconcile.getLedgerTotal, Reconcile.financialTypes, exPayoutEntry,
      List.filter_cons, List.filter_nil]
  · simp [claimNetTotal, sumAmounts, exPayoutEntry, List.filter_cons, List.filter_nil]

/-- C8 (amended): the run's net total adds `payment.succeeded` *and*
`payout.paid` amounts and subtracts `refund.succeeded`; one run only appends
— the prior ledger is kept verbatim and the appended entries are exactly the
mismatch alerts; and for every provider a `payment.failed`-tagged alert
carrying both totals and the absolute delta is appended if and only if the
absolute difference between the ledger total and the external total is at
least the 0.01 rounding tolerance. -/
theorem C8_amended_reconcile_behaviour (st : SysState) (ext : Provider → ℚ) (now : Nat) :
    (∀ (s e : Nat) (l : List LedgerEntry) (x : LedgerEntry) (p2 : Provider),
        Reconcile.getLedgerTotal p2 s e (l ++ [x]) =
          Reconcile.getLedgerTotal p2 s e l +
            (if x.provider = p2 ∧ s ≤ x.ts ∧ x.ts ≤ e then
              (if x.type = "payment.succeeded" ∨ x.type = "payout.paid" then x.amount
               else if x.type = "refund.succeeded" then -x.amount else 0)
             else 0)) ∧
    (Reconcile.runReconcileJob now ext st).ledger =
      st.ledger ++ newMismatchEntries now
        ([Provider.stripe, Provider.iap, Provider.wise].map fun p =>
          Reconcile.reconcileProvider p (Reconcile.getStartDate now) now ext st.ledger)
        st.ledger.length ∧
    (∀ p : Provider,
      (¬ |Reconcile.getLedgerTotal p (Reconcile.getStartDate now) now st.ledger
            - ext p| < 1 / 100) ↔
        ∃ x ∈ (Reconcile.runReconcileJob now ext st).ledger.drop st.ledger.length,
          x.provider = p ∧ x.type = "payment.failed" ∧
          x.meta.mtype = some "reconciliation_mismatch" ∧
          x.meta.ledgerTotal = some (Reconcile.getLedgerTotal p
            (Reconcile.getStartDate now) now st.ledger) ∧
          x.meta.providerTotal = some (ext p) ∧
          x.amount = |Reconcile.getLedgerTotal p
            (Reconcile.getStartDate now) now st.ledger - ext p|) := by
  have hled : (Reconcile.runReconcileJob now ext st).ledger =
      st.ledger ++ newMismatchEntries now
        ([Provider.stripe, Provider.iap, Provider.wise].map fun p =>
          Reconcile.reconcileProvider p (Reconcile.getStartDate now) now ext st.ledger)
        st.ledger.length := by
    unfold Reconcile.runReconcileJob
    exact foldl_writeMismatch now _ st
  refine ⟨fun s e l x p2 => getLedgerTotal_append_single p2 s e l x, hled, fun p => ?_⟩
  rw [hled, List.drop_left]
  constructor
  · intro hmis
    have hrp : (Reconcile.reconcileProvider p (Reconcile.getStartDate now) now ext
        st.ledger).matched = false := by
      unfold Reconcile.reconcileProvider
      exact decide_eq_false hmis
    have hpmem : p ∈ [Provider.stripe, Provider.iap, Provider.wise] := by
      cases p <;> simp
    obtain ⟨b, hb⟩ := exists_mem_newMismatchEntries now _ st.ledger.length _
      (List.mem_map_of_mem
        (fun p2 => Reconcile.reconcileProvider p2 (Reconcile.getStartDate now) now ext
          st.ledger) hpmem) hrp
    exact ⟨_, hb, rfl, rfl, rfl, rfl, rfl, rfl⟩
  · rintro ⟨x, hx, hp, -, -, -, -, -⟩
    obtain ⟨r, hrmem, hrmat, b, rfl⟩ := mem_newMismatchEntries now _ _ x hx
    obtain ⟨q, hq, rfl⟩ := List.mem_map.mp hrmem
    have hqp : q = p := hp
    subst hqp
    exact decide_eq_false_iff_not.mp hrmat

/-- C8 witness: the concrete ledger with a single 1000.00 `payment.succeeded`
entry — equal totals (1000.00 vs 1000.00) append nothing, and 1000.00 vs
1050.00 appends the mismatch alert carrying both totals and the 50.00
delta. -/
theorem C8_witness :
    Reconcile.getLedgerTotal Provider.stripe (Reconcile.getStartDate MS_PER_DAY)
      MS_PER_DAY exStateLedger.ledger = 1000 ∧
    (Reconcile.runReconcileJob MS_PER_DAY
        (fun p => if p = Provider.stripe then 1000 else 0) exStateLedger).ledger =
      exStateLedger.ledger ∧
    (∃ x ∈ (Reconcile.runReconcileJob MS_PER_DAY
        (fun p => if p = Provider.stripe then 1050 else 0) exStateLedger).ledger.drop
        exStateLedger.ledger.length,
      x.provider = Provider.stripe ∧ x.type = "payment.failed" ∧
      x.meta.mtype = some "reconciliation_mismatch" ∧
      x.meta.ledgerTotal = some (Reconcile.getLedgerTotal Provider.stripe
        (Reconcile.getStartDate MS_PER_DAY) MS_PER_DAY exStateLedger.ledger) ∧
      x.meta.providerTotal =
        some ((fun p => if p = Provider.stripe then (1050 : ℚ) else 0) Provider.stripe) ∧
      x.amount = |Reconcile.getLedgerTotal Provider.stripe
        (Reconcile.getStartDate MS_PER_DAY) MS_PER_DAY exStateLedger.ledger
          - (fun p => if p = Provider.stripe then (1050 : ℚ) else 0) Provider.stripe|) := by
  have h1000 : Reconcile.getLedgerTotal Provider.stripe (Reconcile.getStartDate MS_PER_DAY)
      MS_PER_DAY exStateLedger.ledger = 1000 := by
    simp [Reconcile.getLedgerTotal, Reconcile.getStartDate, Reconcile.financialTypes,
      exStateLedger, exPaymentEntry, MS_PER_DAY, List.filter_cons, List.filter_nil]
  have h0 : ∀ p2 : Provider, p2 = Provider.iap ∨ p2 = Provider.wise →
      Reconcile.getLedgerTotal p2 (Reconcile.getStartDate MS_PER_DAY)
        MS_PER_DAY exStateLedger.ledger = 0 := by
    rintro p2 (rfl | rfl) <;>
      simp [Reconcile.getLedgerTotal, Reconcile.getStartDate, Reconcile.financialTypes,
        exStateLedger, exPaymentEntry, MS_PER_DAY, List.filter_cons, List.filter_nil]
  refine ⟨h1000, ?_, ?_⟩
  · rw [(C8_amended_reconcile_behaviour exStateLedger
      (fun p => if p = Provider.stripe then 1000 else 0) MS_PER_DAY).2.1]
    have hms : (Reconcile.reconcileProvider Provider.stripe
        (Reconcile.getStartDate MS_PER_DAY) MS_PER_DAY
        (fun p => if p = Provider.stripe then 1000 else 0)
        exStateLedger.ledger).matched = true := by
      unfold Reconcile.reconcileProvider
      dsimp only
      rw [h1000]
      simp only [decide_eq_true_eq]
      norm_num
    have hmi : (Reconcile.reconcileProvider Provider.iap
        (Reconcile.getStartDate MS_PER_DAY) MS_PER_DAY
        (fun p => if p = Provider.stripe then 1000 else 0)
        exStateLedger.ledger).matched = true := by
      unfold Reconcile.reconcileProvider
      dsimp only
      rw [h0 Provider.iap (Or.inl rfl),
        if_neg (by decide : ¬(Provider.iap = Provider.stripe))]
      simp only [decide_eq_true_eq]
      norm_num
    have hmw : (Reconcile.reconcileProvider Provider.wise
        (Reconcile.getStartDate MS_PER_DAY) MS_PER_DAY
        (fun p => if p = Provider.stripe then 1000 else 0)
        exStateLedger.ledger).matched = true := by
      unfold Reconcile.reconcileProvider
      dsimp only
      rw [h0 Provider.wise (Or.inr rfl),
        if_neg (by decide : ¬(Provider.wise = Provider.stripe))]
      simp only [decide_eq_true_eq]
      norm_num
    simp only [List.map_cons, List.map_nil, newMismatchEntries]
    rw [if_pos hms, if_pos hmi, if_pos hmw]
    simp
  · refine ((C8_amended_reconcile_behaviour exStateLedger
      (fun p => if p = Provider.stripe then 1050 else 0) MS_PER_DAY).2.2
        Provider.stripe).mp ?_
    rw [h1000]
    norm_num


end PaymentBackend
